import Mathlib

/-!
Shallow embedding of `mosviz/viewers/mos_viewer.py` (class `MOSVizViewer`).

Python exceptions are modelled with `Except PyErr`; the Qt widgets that the
viewer manipulates (the source-selector combo box, the previous/next actions,
the three plot widgets) are modelled as plain fields of a `ViewerState`
record, updated exactly where the source updates them.  Loader functions are
external black boxes: they are identified by a `LoaderId` and their behaviour
is a field `run_loader` of the ambient `Env`.
-/

/-- Python exceptions that the embedded code can raise. -/
inductive PyErr where
  | stopIteration
  | incompatibleAttribute
  | keyError
  | indexError
  | typeError
  | valueError
  | attributeError
  | loaderError (msg : String)
deriving DecidableEq, Repr

/-- Identifier of a loader function (an opaque function object in Python). -/
abbrev LoaderId := Nat

/-- An entry of glue's process-wide `config.data_factory.members` registry. -/
structure FactoryMember where
  label : String
  function : LoaderId
deriving DecidableEq, Repr

/-- Modelled from the spec: the built-in default NIRSpec 1D reader
`mos_loaders.nirspec_spectrum1d_reader`; the module `mosviz/loaders/mos_loaders.py`
is not part of the provided sources, so the reader is an opaque loader id. -/
def nirspec_spectrum1d_reader : LoaderId := 0

/-- Modelled from the spec: the built-in default NIRSpec 2D reader
`mos_loaders.nirspec_spectrum2d_reader` (module not in the provided sources). -/
def nirspec_spectrum2d_reader : LoaderId := 1

/-- Modelled from the spec: the built-in default cutout image reader
`mos_loaders.acs_cutout_image_reader` (module not in the provided sources). -/
def acs_cutout_image_reader : LoaderId := 2

/-- The optional `"loaders"` mapping inside the catalog metadata, with its
three optional keys (`meta["loaders"]`). -/
structure LoadersMeta where
  spec1d : Option String
  spec2d : Option String
  image : Option String
deriving DecidableEq, Repr

/-- The catalog metadata (`data.meta`, copied into `catalog.meta`). -/
structure CatalogMeta where
  loaders : Option LoadersMeta
deriving DecidableEq, Repr

/-- `next((x.function for x in members if x.label == lbl))` with no default:
first registered function with the given label, else `StopIteration`. -/
def next_by_label (members : List FactoryMember) (lbl : String) :
    Except PyErr LoaderId :=
  match members.find? (fun x => x.label == lbl) with
  | some x => .ok x.function
  | none => .error .stopIteration

/-- First registered function with the given label, as an `Option`. -/
def find_label (members : List FactoryMember) (lbl : String) : Option LoaderId :=
  (members.find? (fun x => x.label == lbl)).map (fun x => x.function)

/-- `next((x.function ... if x.label == override), next(x.function ... if
x.label == defaultLabel))`.  In Python the default argument of the outer
`next` is evaluated eagerly, so the inner lookup of `defaultLabel` runs (and
can raise `StopIteration`) before the override is ever consulted. -/
def resolve_loader (members : List FactoryMember) (override : String)
    (defaultLabel : String) : Except PyErr LoaderId := do
  let d ← next_by_label members defaultLabel
  pure ((find_label members override).getD d)

/-- One kind's branch of `_get_loaders`: if the metadata names an override for
the kind, resolve it through the registry (falling back to a registry lookup
of `defaultLabel`); otherwise use the built-in module function directly. -/
def resolve_kind (members : List FactoryMember) (override : Option String)
    (defaultLabel : String) (builtin : LoaderId) : Except PyErr LoaderId :=
  match override with
  | none => .ok builtin
  | some o => resolve_loader members o defaultLabel

/-- `MOSVizViewer._get_loaders` (mos_viewer.py lines 306-326): resolve the
three loader functions from the catalog metadata and the registry. -/
def get_loaders (members : List FactoryMember) (meta : CatalogMeta) :
    Except PyErr (LoaderId × LoaderId × LoaderId) := do
  let s1 ← resolve_kind members (meta.loaders.bind (fun m => m.spec1d))
    "NIRSpec 1D Spectrum" nirspec_spectrum1d_reader
  let s2 ← resolve_kind members (meta.loaders.bind (fun m => m.spec2d))
    "NIRSpec 2D Spectrum" nirspec_spectrum2d_reader
  let s3 ← resolve_kind members (meta.loaders.bind (fun m => m.image))
    "Cutout Image" acs_cutout_image_reader
  pure (s1, s2, s3)

/-- Spec-side description of loader resolution for one kind: a registered
override is used; an unregistered or absent override falls back to the
built-in default reader. -/
def spec_resolution (members : List FactoryMember) (override : Option String)
    (builtin : LoaderId) : LoaderId :=
  match override with
  | none => builtin
  | some o => (find_label members o).getD builtin

/-- A cell of the catalog table: categorical columns hold strings, numeric
columns hold numbers (payloads abstracted as integers). -/
inductive CellVal where
  | str (s : String)
  | num (n : Int)
deriving DecidableEq, Repr

/-- The MOS catalog: an `astropy.table.Table` built column by column, plus the
metadata copied from the host data object. -/
structure Catalog where
  meta : CatalogMeta
  cols : List (String × List CellVal)
deriving DecidableEq, Repr

/-- A row of the catalog (`astropy.table.Row`): the cells of one index, keyed
by column name. -/
structure Row where
  cells : List (String × CellVal)
deriving DecidableEq, Repr

/-- `row[name]` restricted to string cells, as used for the three path
columns; a missing column is a `KeyError`, a non-string cell a `TypeError`. -/
def Row.getStr (r : Row) (name : String) : Except PyErr String :=
  match r.cells.find? (fun p => p.1 == name) with
  | none => .error .keyError
  | some (_, .str s) => .ok s
  | some (_, .num _) => .error .typeError

/-- `catalog[i]`: the row at index `i`, or `IndexError` when some column is
too short (astropy checks the index against the table length). -/
def Catalog.rowAt (c : Catalog) (i : Nat) : Except PyErr Row :=
  if c.cols.all (fun p => i < p.2.length) then
    .ok ⟨c.cols.map (fun p => (p.1, p.2.getD i (CellVal.num 0)))⟩
  else .error .indexError

/-- `catalog[name]`: the column with the given name, if present. -/
def Catalog.getCol (c : Catalog) (name : String) : Option (List CellVal) :=
  (c.cols.find? (fun p => p.1 == name)).map (fun p => p.2)

/-- One glue data component: categorical components carry per-row string
labels (and the path recorded by their load log), numeric ones carry data. -/
structure Component where
  categorical : Bool
  labels : List String
  data : List Int
  load_log_path : String
deriving DecidableEq, Repr

/-- A host `glue.core.data.Data` object: named components plus metadata. -/
structure HostData where
  meta : CatalogMeta
  components : List (String × Component)
deriving DecidableEq, Repr

/-- A host `glue.core.Subset`: `to_mask()` either yields a boolean row mask or
raises, and `subset.data` is the parent data object. -/
structure HostSubset where
  mask : Except PyErr (List Bool)
  data : HostData
deriving Repr

/-- The argument of `_unpack_selection`: a plain data object or a subset. -/
inductive UnpackInput where
  | data (d : HostData)
  | subset (s : HostSubset)

/-- Numpy fancy indexing as used on the per-row arrays: indexing with the
boolean mask keeps the rows where the mask is true; indexing with `None` adds
an axis which the subsequent `ndim > 1` check collapses away again, leaving
the array unchanged. -/
def applyMask {α : Type} (mask : Option (List Bool)) (xs : List α) : List α :=
  match mask with
  | none => xs
  | some m => (xs.zip m).filterMap (fun p => if p.2 then some p.1 else none)

/-- `str.split('/')` on the character list (kernel-computable). -/
def splitCharsOnSlash : List Char → List (List Char)
  | [] => [[]]
  | c :: rest =>
    let r := splitCharsOnSlash rest
    if c = '/' then [] :: r
    else
      match r with
      | [] => [[c]]
      | g :: gs => (c :: g) :: gs

/-- `'/'.join(component._load_log.path.split('/')[:-1])`. -/
def dirOfPath (p : String) : String :=
  String.intercalate "/"
    (((splitCharsOnSlash p.data).map (fun cs => String.mk cs)).dropLast)

/-- `os.path.join` for POSIX paths as used on the product columns. -/
def osPathJoin (a b : String) : String :=
  if b.data.head? = some '/' then b
  else if a = "" then b
  else if a.data.getLast? = some '/' then a ++ b
  else a ++ "/" ++ b

/-- The catalog-building loop of `_unpack_selection` (mos_viewer.py lines
247-274): one column per component; categorical product columns get the load
log's directory joined onto each label, other categorical columns keep their
labels, numeric columns keep their data; the mask filters rows throughout. -/
def build_catalog (d : HostData) (mask : Option (List Bool)) : Catalog :=
  { meta := d.meta
  , cols := d.components.map (fun p =>
      let att := p.1
      let component := p.2
      if component.categorical then
        let comp_labels := applyMask mask component.labels
        if att == "spectrum1d" || att == "spectrum2d" || att == "cutout" then
          let path := dirOfPath component.load_log_path
          (att, comp_labels.map (fun x => CellVal.str (osPathJoin path x)))
        else
          (att, comp_labels.map CellVal.str)
      else
        (att, (applyMask mask component.data).map CellVal.num)) }

/-- The whole mutable state of a `MOSVizViewer` instance that the embedded
methods touch: the Python object fields, the source-selector combo box, the
two navigation actions, the host session's data collection (object
references), a heap giving each referenced data object its current payload,
an allocator for fresh object references, and the last-rendered products. -/
structure ViewerState where
  catalog : Option Catalog
  current_row : Option Row
  loaded_data : List (String × Nat)
  data_collection : List Nat
  heap : List (Nat × Int)
  next_ref : Nat
  source_items : List String
  source_index : Int
  prev_disabled : Bool
  next_disabled : Bool
  rendered : Option (Row × Int × Int × Int)
deriving DecidableEq, Repr

/-- The ambient environment: the process-wide loader registry and the
behaviour of each loader function on a path. -/
structure Env where
  members : List FactoryMember
  run_loader : LoaderId → String → Except PyErr Int

/-- Lookup in an insertion-ordered association list. -/
def assocGet {κ ν : Type} [BEq κ] (d : List (κ × ν)) (k : κ) : Option ν :=
  (d.find? (fun p => p.1 == k)).map (fun p => p.2)

/-- Python-dict-style assignment `d[k] = v`: overwrite in place when the key
exists, else append a new entry. -/
def assocSet {κ ν : Type} [BEq κ] (d : List (κ × ν)) (k : κ) (v : ν) :
    List (κ × ν) :=
  if d.any (fun p => p.1 == k) then
    d.map (fun p => if p.1 == k then (k, v) else p)
  else d ++ [(k, v)]

/-- Lookup in a Python dict modelled as an insertion-ordered association
list (`self._loaded_data.get(key, None)`). -/
def dictGet (d : List (String × Nat)) (k : String) : Option Nat :=
  assocGet d k

/-- Python dict assignment on the loaded-data cache. -/
def dictInsert (d : List (String × Nat)) (k : String) (v : Nat) :
    List (String × Nat) :=
  assocSet d k v

/-- Current payload of the data object behind a reference (0 for a reference
that was never allocated; all embedded code reads only allocated ones). -/
def heapGet (h : List (Nat × Int)) (r : Nat) : Int :=
  (assocGet h r).getD 0

/-- Overwrite the payload of the object behind a reference, in place. -/
def heapSet (h : List (Nat × Int)) (r : Nat) (v : Int) : List (Nat × Int) :=
  assocSet h r v

/-- `MOSVizViewer._update_data_components` (mos_viewer.py lines 368-387):
no cached object for the kind yet: append the new object to the session's
data collection and remember it; otherwise `update_values_from_data`
overwrites the cached object's payload in place. -/
def update_data_components (st : ViewerState) (dataRef : Nat) (key : String) :
    ViewerState :=
  match dictGet st.loaded_data key with
  | none =>
    { st with data_collection := st.data_collection ++ [dataRef]
            , loaded_data := dictInsert st.loaded_data key dataRef }
  | some cur_data =>
    { st with heap := heapSet st.heap cur_data (heapGet st.heap dataRef) }

/-- The pure part of `load_selection`: resolve the three loaders, read the
three path cells of the row and invoke each loader, in source order; the
first exception aborts the rest. -/
def run_row (env : Env) (cat : Catalog) (row : Row) :
    Except PyErr (Int × Int × Int) := do
  let (l1, l2, l3) ← get_loaders env.members cat.meta
  let s1 ← row.getStr "spectrum1d"
  let p1 ← env.run_loader l1 s1
  let s2 ← row.getStr "spectrum2d"
  let p2 ← env.run_loader l2 s2
  let s3 ← row.getStr "cutout"
  let p3 ← env.run_loader l3 s3
  pure (p1, p2, p3)

/-- `MOSVizViewer.load_selection` (mos_viewer.py lines 343-366):
`self.current_row = row` first; then loader resolution and the three loads
(any exception propagates with no further state change); on success the
three freshly created data objects go through `_update_data_components` and
`render_data` redraws the widgets from them. -/
def load_selection (env : Env) (st : ViewerState) (row : Row) :
    ViewerState × Option PyErr :=
  let st := { st with current_row := some row }
  match st.catalog with
  | none => (st, some .attributeError)
  | some cat =>
    match run_row env cat row with
    | .error e => (st, some e)
    | .ok (p1, p2, p3) =>
      let r1 := st.next_ref
      let r2 := st.next_ref + 1
      let r3 := st.next_ref + 2
      let st := { st with
        heap := heapSet (heapSet (heapSet st.heap r1 p1) r2 p2) r3 p3
        , next_ref := st.next_ref + 3 }
      let st := update_data_components st r1 "spec1d"
      let st := update_data_components st r2 "spec2d"
      let st := update_data_components st r3 "image"
      let st := { st with rendered := some (row, p1, p2, p3) }
      (st, none)

/-- `MOSVizViewer._set_navigation` (mos_viewer.py lines 291-304): when the
index is within the selector's item count, set the combo-box index and load
the catalog row at that index; in every case that completes without an
exception, recompute the previous/next action enablement from the requested
index. -/
def set_navigation (env : Env) (st : ViewerState) (index : Int) :
    ViewerState × Option PyErr :=
  let count : Int := st.source_items.length
  let step :=
    if 0 ≤ index ∧ index < count then
      let st := { st with source_index := index }
      match st.catalog with
      | none => (st, some PyErr.typeError)
      | some cat =>
        match cat.rowAt index.toNat with
        | .error e => (st, some e)
        | .ok row => load_selection env st row
    else (st, none)
  match step with
  | (st, some e) => (st, some e)
  | (st, none) =>
    let st := { st with prev_disabled := index ≤ 0 }
    let st := { st with next_disabled := count - 1 ≤ index }
    (st, none)

/-- `MOSVizViewer._update_navigation` (mos_viewer.py lines 283-289): clear
the combo box and repopulate it from the catalog's `id` column (a missing
`id` column raises `KeyError`); Qt selects item 0 when items are inserted
into an emptied box. -/
def update_navigation (st : ViewerState) (cat : Catalog) :
    (ViewerState × Option PyErr) :=
  match cat.getCol "id" with
  | none => (st, some .keyError)
  | some idVals =>
    let items := idVals.map (fun v => match v with
      | .str s => s
      | .num n => toString n)
    ({ st with source_items := items
             , source_index := if items.isEmpty then -1 else 0 }, none)

/-- `MOSVizViewer._unpack_selection` (mos_viewer.py lines 222-281): resolve
the subset mask (an `IncompatibleAttribute` or an all-false mask silently
aborts), rebuild the catalog wholesale, refresh the selector items, navigate
to index 0 and load the first row. -/
def unpack_selection (env : Env) (st : ViewerState) (inp : UnpackInput) :
    ViewerState × Option PyErr :=
  let core := fun (d : HostData) (mask : Option (List Bool)) =>
    let cat := build_catalog d mask
    let st := { st with catalog := some cat }
    match update_navigation st cat with
    | (st, some e) => (st, some e)
    | (st, none) =>
      match set_navigation env st 0 with
      | (st, some e) => (st, some e)
      | (st, none) =>
        match cat.rowAt 0 with
        | .error e => (st, some e)
        | .ok row0 => load_selection env st row0
  match inp with
  | .data d => core d none
  | .subset s =>
    match s.mask with
    | .error .incompatibleAttribute => (st, none)
    | .error e => (st, some e)
    | .ok m =>
      if m.any (fun b => b) then core s.data (some m)
      else (st, none)

/-- Remove the first occurrence of `v` from the list (`list.remove`), or
`none` when `v` is absent (Python raises `ValueError`). -/
def removeFirst (coll : List Nat) (v : Nat) : Option (List Nat) :=
  match coll with
  | [] => none
  | x :: xs =>
    if x = v then some xs
    else (removeFirst xs v).map (fun c => x :: c)

/-- The removal loop of `closeEvent`: remove each cached object in turn; a
failing removal raises after the earlier removals already happened. -/
def removeLoop (coll : List Nat) (vs : List Nat) :
    List Nat × Option PyErr :=
  match vs with
  | [] => (coll, none)
  | v :: rest =>
    match removeFirst coll v with
    | none => (coll, some .valueError)
    | some c => removeLoop c rest

/-- `MOSVizViewer.closeEvent` (mos_viewer.py lines 463-471): remove every
object recorded in the loaded-data cache from the session's data
collection. -/
def closeEvent (st : ViewerState) : ViewerState × Option PyErr :=
  let res := removeLoop st.data_collection (st.loaded_data.map (fun p => p.2))
  ({ st with data_collection := res.1 }, res.2)

/-- A concrete environment: empty registry, loaders that always succeed with
a payload determined by the loader and the path length. -/
def demoEnv : Env :=
  { members := []
  , run_loader := fun l s => .ok ((l : Int) * 100 + s.length) }

/-- A categorical component with the given labels and load-log path. -/
def demoComponent (labels : List String) (path : String) : Component :=
  { categorical := true, labels := labels, data := [], load_log_path := path }

/-- A concrete three-row host data object with the four standard columns. -/
def demoData : HostData :=
  { meta := { loaders := none }
  , components :=
      [ ("id", demoComponent ["a", "b", "c"] "")
      , ("spectrum1d", demoComponent ["s1a", "s1b", "s1c"] "/base/tbl")
      , ("spectrum2d", demoComponent ["s2a", "s2b", "s2c"] "/base/tbl")
      , ("cutout", demoComponent ["ima", "imb", "imc"] "/base/tbl") ] }

/-- The viewer state right after `__init__` / `load_ui`. -/
def initState : ViewerState :=
  { catalog := none, current_row := none, loaded_data := []
  , data_collection := [], heap := [], next_ref := 0
  , source_items := [], source_index := -1
  , prev_disabled := false, next_disabled := false, rendered := none }

/-- The state reached by delivering `demoData` to the viewer (row 0 loaded). -/
def demoState : ViewerState := (unpack_selection demoEnv initState (.data demoData)).1

/-- The catalog built from `demoData` with no mask. -/
def demoCat : Catalog := build_catalog demoData none

/-- What C1 states about one `_set_navigation` call: an in-range index moves
the selector to `i` and loads (and, when the loaders succeed, renders) the
catalog row at `i`; an out-of-range index changes nothing except the
previous/next enablement, which is recomputed from the requested index. -/
def NavJumpSpec (env : Env) (st : ViewerState) (cat : Catalog) (i : Int) : Prop :=
  (0 ≤ i ∧ i < (st.source_items.length : Int) →
    ∃ row, cat.rowAt i.toNat = Except.ok row ∧
      (set_navigation env st i).1.source_index = i ∧
      (set_navigation env st i).1.current_row = some row ∧
      (∀ p1 p2 p3, run_row env cat row = Except.ok (p1, p2, p3) →
        (set_navigation env st i).2 = none ∧
        (set_navigation env st i).1.rendered = some (row, p1, p2, p3))) ∧
  (¬ (0 ≤ i ∧ i < (st.source_items.length : Int)) →
    set_navigation env st i =
      ({ st with prev_disabled := decide (i ≤ 0)
               , next_disabled := decide ((st.source_items.length : Int) - 1 ≤ i) },
       none))

/-- What the amended C2 states about one `_set_navigation` call that raises
no exception: both enablement flags are recomputed from the requested index
`i` (previous disabled iff `i ≤ 0`, next disabled iff `i ≥ N - 1`); for an
in-range request, where the current index becomes `i`, this gives
"previous disabled iff current index is 0" and "next disabled iff current
index is N - 1". -/
def EnablementSpec (env : Env) (st : ViewerState) (i : Int) : Prop :=
  (set_navigation env st i).1.prev_disabled = decide (i ≤ 0) ∧
  (set_navigation env st i).1.next_disabled =
    decide ((st.source_items.length : Int) - 1 ≤ i) ∧
  (0 ≤ i → i < (st.source_items.length : Int) →
    ((set_navigation env st i).1.prev_disabled = true ↔
      (set_navigation env st i).1.source_index = 0) ∧
    ((set_navigation env st i).1.next_disabled = true ↔
      (set_navigation env st i).1.source_index = (st.source_items.length : Int) - 1))

/-- Reachable state for the C2 counterexample: load `demoData`, jump to the
last row (index 2 of 3), then request the out-of-range index `-5`. -/
def c2ex : ViewerState :=
  (set_navigation demoEnv (set_navigation demoEnv demoState 2).1 (-5)).1

/-- A subset whose mask resolution raises `IncompatibleAttribute`. -/
def badSubset : HostSubset :=
  { mask := .error .incompatibleAttribute, data := demoData }

/-- A subset over `demoData` with an all-true mask. -/
def goodSubset : HostSubset :=
  { mask := .ok [true, true, true], data := demoData }

/-- An environment whose 2D-spectrum loader fails on every path while the
other two loaders succeed. -/
def failEnv : Env :=
  { members := []
  , run_loader := fun l s =>
      if l = 1 then .error (.loaderError "unreadable") else .ok ((l : Int) + s.length) }

/-- Row 0 of `demoCat`, written out. -/
def failRow : Row :=
  ⟨[("id", .str "a"), ("spectrum1d", .str "/base/s1a"),
    ("spectrum2d", .str "/base/s2a"), ("cutout", .str "/base/ima")]⟩

/-- C9: the two default paths of `_get_loaders` differ.  With no override the
built-in module reader is returned directly even on an empty registry; with
an unregistered override the fallback is a registry lookup of the default
label, which returns whatever function is registered there (42, not the
built-in 0) and raises `StopIteration` when that label is absent too. -/
theorem c9_get_loaders_default_paths_differ :
    (get_loaders [] { loaders := none } =
      Except.ok (nirspec_spectrum1d_reader, nirspec_spectrum2d_reader,
        acs_cutout_image_reader)) ∧
    (get_loaders [] { loaders := some ⟨some "Custom Reader", none, none⟩ } =
      Except.error PyErr.stopIteration) ∧
    (get_loaders [⟨"NIRSpec 1D Spectrum", 42⟩]
        { loaders := some ⟨some "Custom Reader", none, none⟩ } =
      Except.ok (42, nirspec_spectrum2d_reader, acs_cutout_image_reader)) := by
  refine ⟨rfl, rfl, rfl⟩

/-- When the default label is registered with the built-in function, one
kind's resolution matches the spec's description. -/
theorem resolve_kind_spec (members : List FactoryMember) (ov : Option String)
    (defaultLabel : String) (builtin : LoaderId)
    (h : find_label members defaultLabel = some builtin) :
    resolve_kind members ov defaultLabel builtin =
      Except.ok (spec_resolution members ov builtin) := by
  cases ov with
  | none => rfl
  | some o =>
    unfold resolve_kind resolve_loader next_by_label spec_resolution
    unfold find_label at h
    cases hf : members.find? (fun x => x.label == defaultLabel) with
    | none => rw [hf] at h; exact absurd h (by simp)
    | some x =>
      rw [hf] at h
      have hb : x.function = builtin := by simpa using h
      subst hb
      rfl

/-- C3: loader resolution in `_get_loaders` for each kind: a registered
override is used, an unregistered override falls back to the kind's default
reader, and an absent override uses the built-in default — given that the
three default labels are registered with the built-in readers (which
`mos_loaders` does at import time). -/
theorem c3_get_loaders_resolution (members : List FactoryMember)
    (meta : CatalogMeta)
    (h1 : find_label members "NIRSpec 1D Spectrum" = some nirspec_spectrum1d_reader)
    (h2 : find_label members "NIRSpec 2D Spectrum" = some nirspec_spectrum2d_reader)
    (h3 : find_label members "Cutout Image" = some acs_cutout_image_reader) :
    get_loaders members meta = Except.ok
      (spec_resolution members (meta.loaders.bind (fun m => m.spec1d))
         nirspec_spectrum1d_reader,
       spec_resolution members (meta.loaders.bind (fun m => m.spec2d))
         nirspec_spectrum2d_reader,
       spec_resolution members (meta.loaders.bind (fun m => m.image))
         acs_cutout_image_reader) := by
  unfold get_loaders
  rw [resolve_kind_spec members _ _ _ h1, resolve_kind_spec members _ _ _ h2,
    resolve_kind_spec members _ _ _ h3]
  rfl

/-- Registry for the C3 witness: the three defaults plus one custom loader. -/
def c3members : List FactoryMember :=
  [⟨"NIRSpec 1D Spectrum", 0⟩, ⟨"NIRSpec 2D Spectrum", 1⟩,
   ⟨"Cutout Image", 2⟩, ⟨"Custom 2D", 7⟩]

/-- Metadata for the C3 witness: an unregistered spec1d override, a
registered spec2d override, no image override. -/
def c3meta : CatalogMeta :=
  { loaders := some ⟨some "Custom Reader", some "Custom 2D", none⟩ }

/-- Witness for C3 at a concrete registry and metadata exercising all three
resolution cases (result `(0, 7, 2)`). -/
theorem c3_get_loaders_resolution_witness :
    find_label c3members "NIRSpec 1D Spectrum" = some nirspec_spectrum1d_reader ∧
    find_label c3members "NIRSpec 2D Spectrum" = some nirspec_spectrum2d_reader ∧
    find_label c3members "Cutout Image" = some acs_cutout_image_reader ∧
    get_loaders c3members c3meta = Except.ok
      (spec_resolution c3members (c3meta.loaders.bind (fun m => m.spec1d))
         nirspec_spectrum1d_reader,
       spec_resolution c3members (c3meta.loaders.bind (fun m => m.spec2d))
         nirspec_spectrum2d_reader,
       spec_resolution c3members (c3meta.loaders.bind (fun m => m.image))
         acs_cutout_image_reader) :=
  ⟨by decide, by decide, by decide,
   c3_get_loaders_resolution c3members c3meta (by decide) (by decide) (by decide)⟩

/-- `_update_data_components` never touches the selector index. -/
theorem update_dc_source_index (st : ViewerState) (r : Nat) (k : String) :
    (update_data_components st r k).source_index = st.source_index := by
  unfold update_data_components
  cases dictGet st.loaded_data k <;> rfl

/-- `_update_data_components` never touches the current row. -/
theorem update_dc_current_row (st : ViewerState) (r : Nat) (k : String) :
    (update_data_components st r k).current_row = st.current_row := by
  unfold update_data_components
  cases dictGet st.loaded_data k <;> rfl

/-- `_update_data_components` never touches the rendered products. -/
theorem update_dc_rendered (st : ViewerState) (r : Nat) (k : String) :
    (update_data_components st r k).rendered = st.rendered := by
  unfold update_data_components
  cases dictGet st.loaded_data k <;> rfl

/-- `_update_data_components` never touches the catalog. -/
theorem update_dc_catalog (st : ViewerState) (r : Nat) (k : String) :
    (update_data_components st r k).catalog = st.catalog := by
  unfold update_data_components
  cases dictGet st.loaded_data k <;> rfl

/-- `_update_data_components` never touches the selector items. -/
theorem update_dc_source_items (st : ViewerState) (r : Nat) (k : String) :
    (update_data_components st r k).source_items = st.source_items := by
  unfold update_data_components
  cases dictGet st.loaded_data k <;> rfl

/-- An out-of-range `_set_navigation` only recomputes the two enablement
flags, from the requested index. -/
theorem set_navigation_not_in_range (env : Env) (st : ViewerState) (index : Int)
    (h : ¬ (0 ≤ index ∧ index < (st.source_items.length : Int))) :
    set_navigation env st index =
      ({ st with prev_disabled := decide (index ≤ 0)
               , next_disabled := decide ((st.source_items.length : Int) - 1 ≤ index) },
       none) := by
  unfold set_navigation
  dsimp only
  rw [if_neg h]

/-- An in-range `_set_navigation` with a readable row: set the selector
index, load the row, and on success recompute the enablement flags. -/
theorem set_navigation_in_range_eq (env : Env) (st : ViewerState) (cat : Catalog)
    (i : Int) (row : Row)
    (hcat : st.catalog = some cat) (h0 : 0 ≤ i)
    (hN : i < (st.source_items.length : Int))
    (hrow : cat.rowAt i.toNat = Except.ok row) :
    set_navigation env st i =
      (match load_selection env { st with source_index := i } row with
       | (st2, some e) => (st2, some e)
       | (st2, none) =>
         ({ st2 with prev_disabled := decide (i ≤ 0)
                   , next_disabled := decide ((st.source_items.length : Int) - 1 ≤ i) },
          none)) := by
  unfold set_navigation
  dsimp only
  rw [if_pos ⟨h0, hN⟩, hcat]
  dsimp only
  rw [hrow]

/-- `load_selection` when one of the pure steps raises: only `current_row`
has changed, and the exception propagates. -/
theorem load_selection_run_err (env : Env) (st : ViewerState) (cat : Catalog)
    (row : Row) (e : PyErr)
    (hcat : st.catalog = some cat) (hrun : run_row env cat row = Except.error e) :
    load_selection env st row = ({ st with current_row := some row }, some e) := by
  unfold load_selection
  dsimp only
  rw [hcat]
  dsimp only
  rw [hrun]

/-- `load_selection` when all three loads succeed: no exception, the new row
and its products are rendered, and the navigation fields are untouched. -/
theorem load_selection_run_ok (env : Env) (st : ViewerState) (cat : Catalog)
    (row : Row) (p1 p2 p3 : Int)
    (hcat : st.catalog = some cat)
    (hrun : run_row env cat row = Except.ok (p1, p2, p3)) :
    (load_selection env st row).2 = none ∧
    (load_selection env st row).1.rendered = some (row, p1, p2, p3) ∧
    (load_selection env st row).1.current_row = some row ∧
    (load_selection env st row).1.source_index = st.source_index ∧
    (load_selection env st row).1.source_items = st.source_items ∧
    (load_selection env st row).1.catalog = st.catalog := by
  unfold load_selection
  dsimp only
  rw [hcat]
  dsimp only
  rw [hrun]
  refine ⟨rfl, rfl, ?_, ?_, ?_, ?_⟩ <;>
    simp only [update_dc_current_row, update_dc_source_index,
      update_dc_source_items, update_dc_catalog]

/-- C1: `_set_navigation` with `0 <= i < N` updates the source selector to
`i` and triggers the selection load of catalog row `i`, rendering row `i`'s
products when the loaders succeed; with `i` outside `[0, N)` it performs no
load and leaves the selector and catalog (and all other state) unchanged,
yet still recomputes the previous/next enablement. -/
theorem c1_set_navigation_jump (env : Env) (st : ViewerState) (cat : Catalog)
    (i : Int) (hcat : st.catalog = some cat)
    (hwf : ∀ p ∈ cat.cols, p.2.length = st.source_items.length) :
    NavJumpSpec env st cat i := by
  unfold NavJumpSpec
  constructor
  · rintro ⟨h0, hN⟩
    have hrow : cat.rowAt i.toNat =
        Except.ok ⟨cat.cols.map (fun p => (p.1, p.2.getD i.toNat (CellVal.num 0)))⟩ := by
      unfold Catalog.rowAt
      rw [if_pos]
      simp only [List.all_eq_true, decide_eq_true_eq]
      intro p hp
      have := hwf p hp
      omega
    refine ⟨_, hrow, ?_⟩
    rw [set_navigation_in_range_eq env st cat i _ hcat h0 hN hrow]
    have hcat1 : ({ st with source_index := i } : ViewerState).catalog = some cat := hcat
    cases hr : run_row env cat
        (⟨cat.cols.map (fun p => (p.1, p.2.getD i.toNat (CellVal.num 0)))⟩ : Row) with
    | error e =>
      rw [load_selection_run_err env _ cat _ e hcat1 hr]
      refine ⟨rfl, rfl, ?_⟩
      intro p1 p2 p3 hok
      exact Except.noConfusion hok
    | ok t =>
      obtain ⟨p1, p2, p3⟩ := t
      obtain ⟨he, hrend, hcur, hsi, hits, hcat2⟩ :=
        load_selection_run_ok env { st with source_index := i } cat _ p1 p2 p3 hcat1 hr
      cases hld : load_selection env { st with source_index := i }
          (⟨cat.cols.map (fun p => (p.1, p.2.getD i.toNat (CellVal.num 0)))⟩ : Row) with
      | mk st2 errOpt =>
        rw [hld] at he hrend hcur hsi
        dsimp only at he hrend hcur hsi
        subst he
        refine ⟨?_, ?_, ?_⟩
        · exact hsi
        · exact hcur
        · intro q1 q2 q3 hok
          have h3 : p1 = q1 ∧ p2 = q2 ∧ p3 = q3 := by
            simpa using hok
          obtain ⟨rfl, rfl, rfl⟩ := h3
          exact ⟨rfl, hrend⟩
  · intro h
    exact set_navigation_not_in_range env st i h

/-- Witness for C1 on the concrete three-row viewer state at index 1. -/
theorem c1_set_navigation_jump_witness :
    demoState.catalog = some demoCat ∧
    (∀ p ∈ demoCat.cols, p.2.length = demoState.source_items.length) ∧
    NavJumpSpec demoEnv demoState demoCat 1 :=
  ⟨by decide, by decide,
   c1_set_navigation_jump demoEnv demoState demoCat 1 (by decide) (by decide)⟩

/-- `load_selection` never changes the selector index. -/
theorem load_selection_pres_source_index (env : Env) (st : ViewerState) (row : Row) :
    (load_selection env st row).1.source_index = st.source_index := by
  unfold load_selection
  dsimp only
  cases hc : st.catalog with
  | none => rfl
  | some cat =>
    dsimp only
    cases hr : run_row env cat row with
    | error e => rfl
    | ok t =>
      obtain ⟨p1, p2, p3⟩ := t
      dsimp only
      simp only [update_dc_source_index]

/-- An in-range `_set_navigation`, before the row lookup is resolved. -/
theorem set_navigation_in_range_cases (env : Env) (st : ViewerState)
    (cat : Catalog) (i : Int) (hcat : st.catalog = some cat)
    (h0 : 0 ≤ i) (hN : i < (st.source_items.length : Int)) :
    set_navigation env st i =
      (match (match cat.rowAt i.toNat with
              | Except.error e => ({ st with source_index := i }, some e)
              | Except.ok row => load_selection env { st with source_index := i } row) with
       | (st2, some e) => (st2, some e)
       | (st2, none) =>
         ({ st2 with prev_disabled := decide (i ≤ 0)
                   , next_disabled := decide ((st.source_items.length : Int) - 1 ≤ i) },
          none)) := by
  unfold set_navigation
  dsimp only
  rw [if_pos ⟨h0, hN⟩, hcat]

/-- C2 (amended): on every `_set_navigation` call that completes without an
exception, the enablement flags are recomputed from the requested index, so
the claimed "disabled iff current index is at the boundary" holds exactly
for in-range jumps. -/
theorem c2_enablement_recomputed (env : Env) (st : ViewerState)
    (cat : Catalog) (i : Int) (hcat : st.catalog = some cat)
    (hdone : (set_navigation env st i).2 = none) :
    EnablementSpec env st i := by
  unfold EnablementSpec
  by_cases hin : 0 ≤ i ∧ i < (st.source_items.length : Int)
  · obtain ⟨h0, hN⟩ := hin
    rw [set_navigation_in_range_cases env st cat i hcat h0 hN] at hdone ⊢
    cases hrw : cat.rowAt i.toNat with
    | error e =>
      rw [hrw] at hdone
      dsimp only at hdone
      exact Option.noConfusion hdone
    | ok row =>
      rw [hrw] at hdone
      dsimp only at hdone ⊢
      cases hld : load_selection env { st with source_index := i } row with
      | mk st2 errOpt =>
        rw [hld] at hdone
        cases errOpt with
        | some e =>
          dsimp only at hdone
          exact Option.noConfusion hdone
        | none =>
          have hsi : st2.source_index = i := by
            have h := load_selection_pres_source_index env
              { st with source_index := i } row
            rw [hld] at h
            exact h
          dsimp only
          refine ⟨rfl, rfl, ?_⟩
          intro _ _
          rw [hsi]
          constructor
          · simp only [decide_eq_true_eq]
            omega
          · simp only [decide_eq_true_eq]
            omega
  · rw [set_navigation_not_in_range env st i hin]
    refine ⟨rfl, rfl, ?_⟩
    intro h0 hN
    exact absurd ⟨h0, hN⟩ hin

/-- Witness for the amended C2 at the concrete state and the in-range
request 2 (last of three rows). -/
theorem c2_enablement_recomputed_witness :
    demoState.catalog = some demoCat ∧
    (set_navigation demoEnv demoState 2).2 = none ∧
    EnablementSpec demoEnv demoState 2 :=
  ⟨by decide, by decide,
   c2_enablement_recomputed demoEnv demoState demoCat 2 (by decide) (by decide)⟩

/-- Counterexample to C2 as stated: in the reachable state `c2ex`, produced
by the out-of-range jump to `-5` from current index 2 (of 3 rows), the
previous action is disabled although the current index is not 0, and the
next action is enabled although the current index is N - 1. -/
theorem c2_counterexample_requested_vs_current :
    c2ex.prev_disabled = true ∧ c2ex.source_index = 2 ∧
    c2ex.next_disabled = false ∧
    c2ex.source_index = (c2ex.source_items.length : Int) - 1 := by decide

/-- C4: a subset whose mask resolution raises `IncompatibleAttribute`, or
whose mask selects zero rows, makes `_unpack_selection` return silently with
every piece of viewer state exactly as it was. -/
theorem c4_unpack_silent_abort (env : Env) (st : ViewerState) (s : HostSubset)
    (h : s.mask = Except.error PyErr.incompatibleAttribute ∨
      ∃ m, s.mask = Except.ok m ∧ m.any (fun b => b) = false) :
    unpack_selection env st (UnpackInput.subset s) = (st, none) := by
  unfold unpack_selection
  dsimp only
  rcases h with h1 | ⟨m, hm, hany⟩
  · rw [h1]
  · rw [hm]
    dsimp only
    rw [hany]
    rfl

/-- Witness for C4 on the subset whose mask raises. -/
theorem c4_unpack_silent_abort_witness :
    (badSubset.mask = Except.error PyErr.incompatibleAttribute ∨
      ∃ m, badSubset.mask = Except.ok m ∧ m.any (fun b => b) = false) ∧
    unpack_selection demoEnv initState (UnpackInput.subset badSubset) =
      (initState, none) :=
  ⟨Or.inl rfl, c4_unpack_silent_abort demoEnv initState badSubset (Or.inl rfl)⟩

/-- `load_selection` never changes the catalog. -/
theorem load_selection_pres_catalog (env : Env) (st : ViewerState) (row : Row) :
    (load_selection env st row).1.catalog = st.catalog := by
  unfold load_selection
  dsimp only
  cases hc : st.catalog with
  | none => rfl
  | some cat =>
    dsimp only
    cases hr : run_row env cat row with
    | error e => rfl
    | ok t =>
      obtain ⟨p1, p2, p3⟩ := t
      dsimp only
      simp only [update_dc_catalog]

/-- `_set_navigation` never changes the catalog. -/
theorem set_navigation_pres_catalog (env : Env) (st : ViewerState) (i : Int) :
    (set_navigation env st i).1.catalog = st.catalog := by
  unfold set_navigation
  dsimp only
  by_cases hin : 0 ≤ i ∧ i < (st.source_items.length : Int)
  · rw [if_pos hin]
    cases hc : st.catalog with
    | none => rfl
    | some cat =>
      dsimp only
      cases hrw : cat.rowAt i.toNat with
      | error e => rfl
      | ok row =>
        dsimp only
        have h2 := load_selection_pres_catalog env
          { st with source_index := i, catalog := some cat } row
        cases hld : load_selection env
            { st with source_index := i, catalog := some cat } row with
        | mk st2 errOpt =>
          rw [hld] at h2
          cases errOpt with
          | some e => exact h2
          | none => exact h2
  · rw [if_neg hin]

/-- After a successful mask resolution, `_unpack_selection` replaces the
catalog wholesale with the one built from the data and the mask, and nothing
later in the pipeline changes it again. -/
theorem unpack_subset_catalog (env : Env) (st : ViewerState) (s : HostSubset)
    (m : List Bool) (hm : s.mask = Except.ok m)
    (hany : m.any (fun b => b) = true) :
    (unpack_selection env st (UnpackInput.subset s)).1.catalog =
      some (build_catalog s.data (some m)) := by
  unfold unpack_selection
  dsimp only
  rw [hm]
  dsimp only
  rw [if_pos hany]
  unfold update_navigation
  cases hid : (build_catalog s.data (some m)).getCol "id" with
  | none => rfl
  | some idVals =>
    dsimp only
    cases hsn : set_navigation env
        { st with catalog := some (build_catalog s.data (some m))
                , source_items := idVals.map (fun v => match v with
                    | .str s => s
                    | .num n => toString n)
                , source_index := if (idVals.map (fun v => match v with
                    | .str s => s
                    | .num n => toString n)).isEmpty then -1 else 0 } 0 with
    | mk st3 e3 =>
      have h3 := set_navigation_pres_catalog env
        { st with catalog := some (build_catalog s.data (some m))
                , source_items := idVals.map (fun v => match v with
                    | .str s => s
                    | .num n => toString n)
                , source_index := if (idVals.map (fun v => match v with
                    | .str s => s
                    | .num n => toString n)).isEmpty then -1 else 0 } 0
      rw [hsn] at h3
      cases e3 with
      | some e => exact h3
      | none =>
        dsimp only
        cases hr0 : (build_catalog s.data (some m)).rowAt 0 with
        | error e => exact h3
        | ok row0 =>
          dsimp only
          have h4 := load_selection_pres_catalog env st3 row0
          cases hl : load_selection env st3 row0 with
          | mk st4 e4 =>
            rw [hl] at h4
            exact h4.trans h3

/-- C5: unpacking the same subset (all-true mask) twice yields the same
catalog both times; the catalog depends only on the input data and mask. -/
theorem c5_unpack_idempotent_catalog (env : Env) (st : ViewerState)
    (s : HostSubset) (m : List Bool) (hm : s.mask = Except.ok m)
    (hall : m.all (fun b => b) = true) (hne : 0 < m.length) :
    (unpack_selection env (unpack_selection env st (UnpackInput.subset s)).1
        (UnpackInput.subset s)).1.catalog =
      (unpack_selection env st (UnpackInput.subset s)).1.catalog ∧
    (unpack_selection env st (UnpackInput.subset s)).1.catalog =
      some (build_catalog s.data (some m)) := by
  have hany : m.any (fun b => b) = true := by
    cases m with
    | nil => simp at hne
    | cons b bs =>
      simp only [List.all_cons, Bool.and_eq_true] at hall
      simp [List.any_cons, hall.1]
  have h1 := unpack_subset_catalog env st s m hm hany
  have h2 := unpack_subset_catalog env
    (unpack_selection env st (UnpackInput.subset s)).1 s m hm hany
  exact ⟨h2.trans h1.symm, h1⟩

/-- Witness for C5 on the concrete all-true subset over `demoData`. -/
theorem c5_unpack_idempotent_catalog_witness :
    goodSubset.mask = Except.ok [true, true, true] ∧
    [true, true, true].all (fun b => b) = true ∧
    0 < [true, true, true].length ∧
    (unpack_selection demoEnv
        (unpack_selection demoEnv initState (UnpackInput.subset goodSubset)).1
        (UnpackInput.subset goodSubset)).1.catalog =
      (unpack_selection demoEnv initState (UnpackInput.subset goodSubset)).1.catalog :=
  ⟨rfl, by decide, by decide,
   (c5_unpack_idempotent_catalog demoEnv initState goodSubset [true, true, true]
     rfl (by decide) (by decide)).1⟩

theorem assocGet_map_overwrite {κ ν : Type} [BEq κ] [LawfulBEq κ]
    (d : List (κ × ν)) (k : κ) (v : ν) :
    assocGet (d.map (fun p => if p.1 == k then (k, v) else p)) k =
      if d.any (fun p => p.1 == k) then some v else none := by
  induction d with
  | nil => rfl
  | cons p rest ih =>
    cases hpk : (p.1 == k) with
    | true =>
      simp [assocGet, List.find?_cons, hpk]
    | false =>
      simp only [List.map_cons, List.any_cons, hpk, Bool.false_or]
      simp only [assocGet, List.find?_cons, hpk] at ih ⊢
      simpa [hpk] using ih

theorem assocGet_map_overwrite_ne {κ ν : Type} [BEq κ] [LawfulBEq κ]
    (d : List (κ × ν)) (k k2 : κ) (v : ν) (h : (k2 == k) = false) :
    assocGet (d.map (fun p => if p.1 == k then (k, v) else p)) k2 =
      assocGet d k2 := by
  have hkk2 : (k == k2) = false := by
    simp only [beq_eq_false_iff_ne] at h ⊢
    exact fun he => h he.symm
  induction d with
  | nil => rfl
  | cons p rest ih =>
    cases hpk : (p.1 == k) with
    | true =>
      have hp : p.1 = k := eq_of_beq hpk
      have hp2 : (p.1 == k2) = false := by rw [hp]; exact hkk2
      simp [assocGet, List.find?_cons, hpk, hkk2, hp2] at ih ⊢
      exact ih
    | false =>
      cases hq : (p.1 == k2) with
      | true => simp [assocGet, List.find?_cons, hpk, hq]
      | false =>
        simp [assocGet, List.find?_cons, hpk, hq] at ih ⊢
        exact ih

theorem assocGet_append_single {κ ν : Type} [BEq κ] [LawfulBEq κ]
    (d : List (κ × ν)) (k : κ) (v : ν) :
    assocGet (d ++ [(k, v)]) k = some ((assocGet d k).getD v) := by
  induction d with
  | nil => simp [assocGet]
  | cons p rest ih =>
    cases hpk : (p.1 == k) with
    | true => simp [assocGet, List.find?_cons, hpk]
    | false =>
      simp only [List.cons_append]
      simp only [assocGet, List.find?_cons, hpk] at ih ⊢
      simpa [hpk] using ih

theorem assocGet_append_single_ne {κ ν : Type} [BEq κ] [LawfulBEq κ]
    (d : List (κ × ν)) (k k2 : κ) (v : ν) (h : (k2 == k) = false) :
    assocGet (d ++ [(k, v)]) k2 = assocGet d k2 := by
  have hkk2 : (k == k2) = false := by
    simp only [beq_eq_false_iff_ne] at h ⊢
    exact fun he => h he.symm
  induction d with
  | nil => simp [assocGet, hkk2]
  | cons p rest ih =>
    cases hq : (p.1 == k2) with
    | true => simp [assocGet, List.find?_cons, hq]
    | false =>
      simp only [List.cons_append]
      simp only [assocGet, List.find?_cons, hq] at ih ⊢
      simpa [hq] using ih

theorem assocGet_eq_none_of_not_any {κ ν : Type} [BEq κ]
    (d : List (κ × ν)) (k : κ) (h : d.any (fun p => p.1 == k) = false) :
    assocGet d k = none := by
  induction d with
  | nil => rfl
  | cons p rest ih =>
    simp only [List.any_cons, Bool.or_eq_false_iff] at h
    simp only [assocGet, List.find?_cons, h.1] at ih ⊢
    simpa [h.1] using ih h.2

theorem assocGet_assocSet_self {κ ν : Type} [BEq κ] [LawfulBEq κ]
    (d : List (κ × ν)) (k : κ) (v : ν) :
    assocGet (assocSet d k v) k = some v := by
  unfold assocSet
  cases hany : d.any (fun p => p.1 == k) with
  | true =>
    rw [if_pos rfl]
    rw [assocGet_map_overwrite, hany]
    rfl
  | false =>
    rw [if_neg (by simp)]
    rw [assocGet_append_single, assocGet_eq_none_of_not_any d k hany]
    rfl

theorem assocGet_assocSet_ne {κ ν : Type} [BEq κ] [LawfulBEq κ]
    (d : List (κ × ν)) (k k2 : κ) (v : ν) (h : (k2 == k) = false) :
    assocGet (assocSet d k v) k2 = assocGet d k2 := by
  unfold assocSet
  cases hany : d.any (fun p => p.1 == k) with
  | true =>
    rw [if_pos rfl]
    exact assocGet_map_overwrite_ne d k k2 v h
  | false =>
    rw [if_neg (by simp)]
    exact assocGet_append_single_ne d k k2 v h

/-- C6: `_update_data_components` — with no cached object for the kind, the
new object is appended to the host collection and recorded in the cache
(other cache keys untouched, heap untouched); with a cached object, its
payload is overwritten in place from the new object, the cache keeps
pointing at the same object, no other object's payload changes, and nothing
is appended to the collection. -/
theorem c6_update_data_components_cache (st : ViewerState) (dataRef : Nat) (key : String) :
    (dictGet st.loaded_data key = none →
      (update_data_components st dataRef key).data_collection =
        st.data_collection ++ [dataRef] ∧
      dictGet (update_data_components st dataRef key).loaded_data key = some dataRef ∧
      (∀ k2, k2 ≠ key →
        dictGet (update_data_components st dataRef key).loaded_data k2 =
          dictGet st.loaded_data k2) ∧
      (update_data_components st dataRef key).heap = st.heap) ∧
    (∀ cur, dictGet st.loaded_data key = some cur →
      (update_data_components st dataRef key).data_collection = st.data_collection ∧
      (update_data_components st dataRef key).loaded_data = st.loaded_data ∧
      heapGet (update_data_components st dataRef key).heap cur =
        heapGet st.heap dataRef ∧
      (∀ r2, r2 ≠ cur →
        heapGet (update_data_components st dataRef key).heap r2 = heapGet st.heap r2)) := by
  unfold update_data_components
  cases h : dictGet st.loaded_data key with
  | none =>
    dsimp only
    refine ⟨fun _ => ⟨rfl, ?_, ?_, rfl⟩, fun cur hcur => Option.noConfusion hcur⟩
    · unfold dictGet dictInsert
      exact assocGet_assocSet_self _ _ _
    · intro k2 hk2
      unfold dictGet dictInsert
      exact assocGet_assocSet_ne _ _ _ _ (by simpa [beq_eq_false_iff_ne] using hk2)
  | some cur0 =>
    dsimp only
    refine ⟨fun hno => Option.noConfusion hno, fun cur hcur => ?_⟩
    have hc : cur0 = cur := by
      injection hcur
    subst hc
    refine ⟨rfl, rfl, ?_, ?_⟩
    · unfold heapGet heapSet
      rw [assocGet_assocSet_self]
      rfl
    · intro r2 hr2
      unfold heapGet heapSet
      rw [assocGet_assocSet_ne _ _ _ _ (by simpa [beq_eq_false_iff_ne] using hr2)]

/-- Witness for C6 exercising both the cache-hit branch (key `spec1d`,
cached object 0) and the cache-miss branch (key `extra`, new object 7). -/
theorem c6_update_data_components_cache_witness :
    dictGet demoState.loaded_data "spec1d" = some 0 ∧
    (update_data_components demoState 7 "spec1d").data_collection =
      demoState.data_collection ∧
    (update_data_components demoState 7 "spec1d").loaded_data =
      demoState.loaded_data ∧
    heapGet (update_data_components demoState 7 "spec1d").heap 0 =
      heapGet demoState.heap 7 ∧
    dictGet demoState.loaded_data "extra" = none ∧
    (update_data_components demoState 7 "extra").data_collection =
      demoState.data_collection ++ [7] ∧
    dictGet (update_data_components demoState 7 "extra").loaded_data "extra" =
      some 7 :=
  ⟨by decide,
   ((c6_update_data_components_cache demoState 7 "spec1d").2 0 (by decide)).1,
   ((c6_update_data_components_cache demoState 7 "spec1d").2 0 (by decide)).2.1,
   ((c6_update_data_components_cache demoState 7 "spec1d").2 0 (by decide)).2.2.1,
   by decide,
   ((c6_update_data_components_cache demoState 7 "extra").1 (by decide)).1,
   ((c6_update_data_components_cache demoState 7 "extra").1 (by decide)).2.1⟩

theorem except_bind_ok {ε α β : Type} (a : α) (f : α → Except ε β) :
    ((Except.ok a : Except ε α) >>= f) = f a := rfl

theorem except_bind_error {ε α β : Type} (e : ε) (f : α → Except ε β) :
    ((Except.error e : Except ε α) >>= f) = Except.error e := rfl

theorem run_row_fails (env : Env) (cat : Catalog) (row : Row)
    (l1 l2 l3 : LoaderId) (s1 s2 s3 : String) (e : PyErr)
    (hgl : get_loaders env.members cat.meta = Except.ok (l1, l2, l3))
    (hs1 : row.getStr "spectrum1d" = Except.ok s1)
    (hs2 : row.getStr "spectrum2d" = Except.ok s2)
    (hs3 : row.getStr "cutout" = Except.ok s3)
    (hfail : env.run_loader l1 s1 = Except.error e ∨
      (∃ p1, env.run_loader l1 s1 = Except.ok p1 ∧
        env.run_loader l2 s2 = Except.error e) ∨
      (∃ p1 p2, env.run_loader l1 s1 = Except.ok p1 ∧
        env.run_loader l2 s2 = Except.ok p2 ∧
        env.run_loader l3 s3 = Except.error e)) :
    run_row env cat row = Except.error e := by
  unfold run_row
  rw [hgl, except_bind_ok]
  dsimp only
  rw [hs1, except_bind_ok]
  rcases hfail with h1 | ⟨p1, hp1, h2⟩ | ⟨p1, p2, hp1, hp2, h3⟩
  · rw [h1, except_bind_error]
  · rw [hp1, except_bind_ok, hs2, except_bind_ok, h2, except_bind_error]
  · rw [hp1, except_bind_ok, hs2, except_bind_ok, hp2, except_bind_ok,
      hs3, except_bind_ok, h3, except_bind_error]

/-- C8: when one of the three loader functions invoked by `load_selection`
raises, the exception is not caught anywhere in the pipeline: it propagates
out of `load_selection`, and the data-component update and render steps are
not reached — the cache, the data collection and the rendered widgets stay
exactly as they were (only `current_row` was already reassigned). -/
theorem c8_loader_exception_propagates (env : Env) (st : ViewerState)
    (cat : Catalog) (row : Row) (l1 l2 l3 : LoaderId) (s1 s2 s3 : String)
    (e : PyErr) (hcat : st.catalog = some cat)
    (hgl : get_loaders env.members cat.meta = Except.ok (l1, l2, l3))
    (hs1 : row.getStr "spectrum1d" = Except.ok s1)
    (hs2 : row.getStr "spectrum2d" = Except.ok s2)
    (hs3 : row.getStr "cutout" = Except.ok s3)
    (hfail : env.run_loader l1 s1 = Except.error e ∨
      (∃ p1, env.run_loader l1 s1 = Except.ok p1 ∧
        env.run_loader l2 s2 = Except.error e) ∨
      (∃ p1 p2, env.run_loader l1 s1 = Except.ok p1 ∧
        env.run_loader l2 s2 = Except.ok p2 ∧
        env.run_loader l3 s3 = Except.error e)) :
    load_selection env st row = ({ st with current_row := some row }, some e) :=
  load_selection_run_err env st cat row e hcat
    (run_row_fails env cat row l1 l2 l3 s1 s2 s3 e hgl hs1 hs2 hs3 hfail)

/-- Witness for C8: the failing 2D-spectrum loader of `failEnv` makes
`load_selection` on row 0 of the demo catalog propagate the error with no
state change beyond `current_row`. -/
theorem c8_loader_exception_propagates_witness :
    demoState.catalog = some demoCat ∧
    get_loaders failEnv.members demoCat.meta = Except.ok (0, 1, 2) ∧
    failRow.getStr "spectrum1d" = Except.ok "/base/s1a" ∧
    failRow.getStr "spectrum2d" = Except.ok "/base/s2a" ∧
    failRow.getStr "cutout" = Except.ok "/base/ima" ∧
    (∃ p1, failEnv.run_loader 0 "/base/s1a" = Except.ok p1 ∧
      failEnv.run_loader 1 "/base/s2a" =
        Except.error (PyErr.loaderError "unreadable")) ∧
    load_selection failEnv demoState failRow =
      ({ demoState with current_row := some failRow },
       some (PyErr.loaderError "unreadable")) :=
  ⟨by decide, rfl, rfl, rfl, rfl,
   ⟨9, rfl, rfl⟩,
   c8_loader_exception_propagates failEnv demoState demoCat failRow 0 1 2
     "/base/s1a" "/base/s2a" "/base/ima" (PyErr.loaderError "unreadable")
     (by decide) rfl rfl rfl rfl
     (Or.inr (Or.inl ⟨9, rfl, rfl⟩))⟩

/-- C10: `load_selection` assigns `current_row` before invoking any loader,
so a loader failure leaves a mixed state: `current_row` already refers to
the newly selected row while the loaded-data cache, the data collection and
the rendered widgets still reflect the previous selection. -/
theorem c10_partial_state_on_loader_failure (env : Env) (st : ViewerState)
    (cat : Catalog) (row : Row) (l1 l2 l3 : LoaderId) (s1 s2 s3 : String)
    (e : PyErr) (hcat : st.catalog = some cat)
    (hgl : get_loaders env.members cat.meta = Except.ok (l1, l2, l3))
    (hs1 : row.getStr "spectrum1d" = Except.ok s1)
    (hs2 : row.getStr "spectrum2d" = Except.ok s2)
    (hs3 : row.getStr "cutout" = Except.ok s3)
    (hfail : env.run_loader l1 s1 = Except.error e ∨
      (∃ p1, env.run_loader l1 s1 = Except.ok p1 ∧
        env.run_loader l2 s2 = Except.error e) ∨
      (∃ p1 p2, env.run_loader l1 s1 = Except.ok p1 ∧
        env.run_loader l2 s2 = Except.ok p2 ∧
        env.run_loader l3 s3 = Except.error e)) :
    (load_selection env st row).1.current_row = some row ∧
    (load_selection env st row).1.loaded_data = st.loaded_data ∧
    (load_selection env st row).1.data_collection = st.data_collection ∧
    (load_selection env st row).1.rendered = st.rendered ∧
    (load_selection env st row).2 = some e := by
  have h := load_selection_run_err env st cat row e hcat
    (run_row_fails env cat row l1 l2 l3 s1 s2 s3 e hgl hs1 hs2 hs3 hfail)
  rw [h]
  exact ⟨rfl, rfl, rfl, rfl, rfl⟩

/-- Witness for C10 on the same failing load: current row is the new row,
cache and rendered output still belong to the previous selection. -/
theorem c10_partial_state_on_loader_failure_witness :
    demoState.catalog = some demoCat ∧
    (∃ p1, failEnv.run_loader 0 "/base/s1a" = Except.ok p1 ∧
      failEnv.run_loader 1 "/base/s2a" =
        Except.error (PyErr.loaderError "unreadable")) ∧
    (load_selection failEnv demoState failRow).1.current_row = some failRow ∧
    (load_selection failEnv demoState failRow).1.loaded_data =
      demoState.loaded_data ∧
    (load_selection failEnv demoState failRow).1.rendered =
      demoState.rendered :=
  ⟨by decide, ⟨9, rfl, rfl⟩,
   (c10_partial_state_on_loader_failure failEnv demoState demoCat failRow 0 1 2
     "/base/s1a" "/base/s2a" "/base/ima" (PyErr.loaderError "unreadable")
     (by decide) rfl rfl rfl rfl
     (Or.inr (Or.inl ⟨9, rfl, rfl⟩))).1,
   (c10_partial_state_on_loader_failure failEnv demoState demoCat failRow 0 1 2
     "/base/s1a" "/base/s2a" "/base/ima" (PyErr.loaderError "unreadable")
     (by decide) rfl rfl rfl rfl
     (Or.inr (Or.inl ⟨9, rfl, rfl⟩))).2.1,
   (c10_partial_state_on_loader_failure failEnv demoState demoCat failRow 0 1 2
     "/base/s1a" "/base/s2a" "/base/ima" (PyErr.loaderError "unreadable")
     (by decide) rfl rfl rfl rfl
     (Or.inr (Or.inl ⟨9, rfl, rfl⟩))).2.2.2.1⟩

theorem removeFirst_of_count_one (coll : List Nat) (v : Nat)
    (h : coll.count v = 1) :
    removeFirst coll v = some (coll.filter (fun r => !(r == v))) := by
  induction coll with
  | nil => simp at h
  | cons x xs ih =>
    by_cases hx : x = v
    · subst hx
      have hxs : xs.count x = 0 := by
        rw [List.count_cons_self] at h
        omega
      have hnot : x ∉ xs := by
        rwa [List.count_eq_zero] at hxs
      unfold removeFirst
      rw [if_pos rfl, List.filter_cons]
      simp only [beq_self_eq_true, Bool.not_true, Bool.false_eq_true, if_neg,
        reduceIte]
      congr 1
      rw [eq_comm, List.filter_eq_self]
      intro a ha
      simp only [Bool.not_eq_true', beq_eq_false_iff_ne]
      exact fun he => hnot (he ▸ ha)
    · unfold removeFirst
      rw [if_neg hx]
      have hcount : xs.count v = 1 := by
        rw [List.count_cons] at h
        simp [hx] at h
        exact h
      rw [ih hcount, List.filter_cons]
      have : (x == v) = false := by
        simp [hx]
      simp [this]

theorem count_filter_ne (r v : Nat) (coll : List Nat) (h : r ≠ v) :
    (coll.filter (fun a => !(a == v))).count r = coll.count r := by
  induction coll with
  | nil => rfl
  | cons x xs ih =>
    rw [List.filter_cons]
    by_cases hx : x = v
    · subst hx
      simp only [beq_self_eq_true, Bool.not_true, Bool.false_eq_true, reduceIte]
      rw [ih, List.count_cons]
      have h2 : ¬ (x = r) := fun he => h he.symm
      simp [h2]
    · have hb : (x == v) = false := by simp [hx]
      simp only [hb, Bool.not_false, reduceIte]
      rw [List.count_cons, List.count_cons, ih]

theorem removeLoop_spec (vs : List Nat) : ∀ coll : List Nat, vs.Nodup →
    (∀ v ∈ vs, coll.count v = 1) →
    removeLoop coll vs = (coll.filter (fun r => !(vs.contains r)), none) := by
  induction vs with
  | nil =>
    intro coll _ _
    simp [removeLoop]
  | cons v rest ih =>
    intro coll hnodup hcount
    have h1 : coll.count v = 1 := hcount v (by simp)
    unfold removeLoop
    rw [removeFirst_of_count_one coll v h1]
    dsimp only
    have hnd := List.nodup_cons.mp hnodup
    have hcount2 : ∀ w ∈ rest, (coll.filter (fun a => !(a == v))).count w = 1 := by
      intro w hw
      rw [count_filter_ne w v coll (fun he => hnd.1 (he ▸ hw))]
      exact hcount w (by simp [hw])
    rw [ih _ hnd.2 hcount2]
    rw [List.filter_filter]
    have hpred : (fun r => (!rest.contains r) && (!(r == v))) =
        (fun r => !((v :: rest).contains r)) := by
      funext r
      simp only [List.contains_cons, Bool.not_or, Bool.and_comm]
    rw [hpred]

/-- C7: `closeEvent` removes from the host's data collection exactly the
objects recorded in the loaded-data cache — the surviving collection is the
old one filtered of the cached references, so every cached object is gone
and nothing outside the cache was removed (given that the cached references
are distinct and each occurs once in the collection, as loading them
guarantees). -/
theorem c7_closeEvent_removes_exactly_cache (st : ViewerState)
    (hnodup : (st.loaded_data.map (fun p => p.2)).Nodup)
    (hcount : ∀ r ∈ st.loaded_data.map (fun p => p.2),
      st.data_collection.count r = 1) :
    (closeEvent st).2 = none ∧
    (closeEvent st).1.data_collection =
      st.data_collection.filter
        (fun r => !((st.loaded_data.map (fun p => p.2)).contains r)) := by
  unfold closeEvent
  rw [removeLoop_spec _ _ hnodup hcount]
  exact ⟨rfl, rfl⟩

/-- Witness for C7: closing the demo viewer (three cached products, refs
0, 1, 2, all in the collection) removes exactly those three objects. -/
theorem c7_closeEvent_removes_exactly_cache_witness :
    (demoState.loaded_data.map (fun p => p.2)).Nodup ∧
    (∀ r ∈ demoState.loaded_data.map (fun p => p.2),
      demoState.data_collection.count r = 1) ∧
    (closeEvent demoState).2 = none ∧
    (closeEvent demoState).1.data_collection =
      demoState.data_collection.filter
        (fun r => !((demoState.loaded_data.map (fun p => p.2)).contains r)) :=
  ⟨by decide, by decide,
   (c7_closeEvent_removes_exactly_cache demoState (by decide) (by decide)).1,
   (c7_closeEvent_removes_exactly_cache demoState (by decide) (by decide)).2⟩
